import Mathlib

/-!
Verification of the dynamic filter engine and aggregation layer of the
BlogAnalysis repository (`src/blog_analytics/`).

The development shallowly embeds:
* `filters.py` — the `DynamicFilter` recursive-descent parser from JSON-shaped
  filter dictionaries to Django `Q` objects, and the `apply_filters` /
  `validate_filters` entry points;
* `utils.py` — `calculate_growth_percentage`;
* `views.py` — the grouping/ranking cores of `BlogViewsAPIView.get`,
  `TopAPIView.get` and the period-merge loop of `PerformanceAPIView.get`.

Modelling conventions:
* JSON values (Python dicts/lists/scalars as produced by `json.loads`) are the
  inductive `Json`; Python dictionaries are association lists with unique keys.
* Django `Q` objects are the inductive `Q`; `Q._combine` treats the empty
  `Q()` as the neutral element of both `&` and `|`, which the smart
  constructors `qAnd` / `qOr` reproduce.
* A queryset of `BlogView` rows is a `List BlogViewRow`; `QuerySet.filter(q)`
  is row-wise evaluation of the predicate, with unresolvable lookup paths
  raising a translation error at query-construction time, as Django's
  `FieldError` does.  The relational schema of `models.py` is flattened into
  `BlogViewRow`, and the lookup paths appearing in the analytics code are
  resolved by `resolveField`.
* Python `float` arithmetic in `calculate_growth_percentage` is modelled by
  exact rationals, with `%.1f` rendering modelled as round-half-to-even on the
  exact value (`roundHalfEven`); IEEE-754 double rounding can differ from the
  exact-rational rendering only in the last unit of the shown digit.
* `datetime` period keys are abstracted as naturals ordered like the dates
  they truncate; the period-label formatter is passed as a parameter since
  `format_period_label` delegates to `strftime` of the external library.
-/

/-- A JSON value, the shape of `json.loads` output fed to the filter engine. -/
inductive Json where
  | null
  | bool (b : Bool)
  | num (n : Int)
  | str (s : String)
  | arr (elems : List Json)
  | obj (fields : List (String × Json))
deriving Repr

mutual

/-- Structural equality of JSON values (Python `==` on parsed JSON). -/
def Json.beq : Json → Json → Bool
  | .null, .null => true
  | .bool a, .bool b => a == b
  | .num a, .num b => a == b
  | .str a, .str b => a == b
  | .arr xs, .arr ys => Json.beqList xs ys
  | .obj xs, .obj ys => Json.beqFields xs ys
  | _, _ => false

def Json.beqList : List Json → List Json → Bool
  | [], [] => true
  | x :: xs, y :: ys => Json.beq x y && Json.beqList xs ys
  | _, _ => false

def Json.beqFields : List (String × Json) → List (String × Json) → Bool
  | [], [] => true
  | (k1, v1) :: xs, (k2, v2) :: ys => k1 == k2 && Json.beq v1 v2 && Json.beqFields xs ys
  | _, _ => false

end

instance : BEq Json := ⟨Json.beq⟩

/-- Python truthiness of a JSON value (`bool(x)`): empty containers, empty
strings, zero, `None` and `False` are falsy. -/
def Json.isTruthy : Json → Bool
  | .null => false
  | .bool b => b
  | .num n => n != 0
  | .str s => !s.isEmpty
  | .arr xs => !xs.isEmpty
  | .obj fs => !fs.isEmpty

/-- Dictionary access `node[key]` on a JSON object's field list. -/
def lookupField : List (String × Json) → String → Option Json
  | [], _ => none
  | (k, v) :: rest, key => if k == key then some v else lookupField rest key

theorem sizeOf_lookupField {fields : List (String × Json)} {key : String} {v : Json}
    (h : lookupField fields key = some v) : sizeOf v < sizeOf fields := by
  induction fields with
  | nil => simp [lookupField] at h
  | cons kv rest ih =>
    obtain ⟨k0, v0⟩ := kv
    simp only [lookupField] at h
    split at h
    · cases h; simp; omega
    · have := ih h; simp; omega

/-- A Django `Q` object as built by `filters.py`: the empty `Q()`, a single
keyword condition `Q(**{field: value})`, and the `&`, `|`, `~` combinators. -/
inductive Q where
  | qempty
  | cond (field : String) (value : Json)
  | qand (a b : Q)
  | qor (a b : Q)
  | qnot (a : Q)
deriving Repr

/-- Django `Q.__and__` (`Q._combine` with `AND`): an empty operand is dropped,
so `Q()` is the neutral element. -/
def qAnd (a b : Q) : Q :=
  match a, b with
  | Q.qempty, b => b
  | a, Q.qempty => a
  | a, b => Q.qand a b

/-- Django `Q.__or__` (`Q._combine` with `OR`): an empty operand is dropped,
so `Q()` is the neutral element of `|` as well. -/
def qOr (a b : Q) : Q :=
  match a, b with
  | Q.qempty, b => b
  | a, Q.qempty => a
  | a, b => Q.qor a b

/-- `DynamicFilter.SUPPORTED_OPERATIONS` (filters.py line 9). -/
def SUPPORTED_OPERATIONS : List String := ["and", "or", "not", "eq"]

/-- `operations = [k for k in node.keys() if k in self.SUPPORTED_OPERATIONS]`
(filters.py line 46). -/
def operationsOf (fields : List (String × Json)) : List String :=
  (fields.map Prod.fst).filter (fun k => SUPPORTED_OPERATIONS.contains k)

/-- `DynamicFilter._parse_eq`: requires a dictionary of field-value pairs and
folds them into a conjunction `q &= Q(**{field: value})`. -/
def parseEq (fields : Json) : Except String Q :=
  match fields with
  | Json.obj fvs =>
      Except.ok (fvs.foldl (fun q fv => qAnd q (Q.cond fv.1 fv.2)) Q.qempty)
  | _ => Except.error "EQ operation requires a dictionary of field-value pairs"

mutual

/-- `DynamicFilter._parse_node` (filters.py lines 32-66), with the bodies of
`_parse_and`, `_parse_or` and `_parse_not` (lines 68-101) inlined at their
single call sites: reject non-dictionaries, demand exactly one supported
operation key, then dispatch on it.  `_parse_and`/`_parse_or` demand a list
operand, return `Q()` on an empty one and fold the parsed children with
`&=`/`|=`; `_parse_not` demands a dictionary operand and negates the parse of
it; the final `Unsupported operation` branch is unreachable because
`operations` is filtered through `SUPPORTED_OPERATIONS`. -/
def parseNode (node : Json) : Except String Q :=
  match node with
  | Json.obj fields =>
    match operationsOf fields with
    | [] => Except.error "No valid operation found in node"
    | [operation] =>
      match h : lookupField fields operation with
      | some value =>
        if operation == "and" then
          match value with
          | Json.arr cs =>
            if cs.isEmpty then Except.ok Q.qempty
            else do
              let qs ← parseNodeList cs
              Except.ok (qs.foldl qAnd Q.qempty)
          | _ => Except.error "AND operation requires a list of conditions"
        else if operation == "or" then
          match value with
          | Json.arr cs =>
            if cs.isEmpty then Except.ok Q.qempty
            else do
              let qs ← parseNodeList cs
              Except.ok (qs.foldl qOr Q.qempty)
          | _ => Except.error "OR operation requires a list of conditions"
        else if operation == "not" then
          match value with
          | Json.obj inner => do
            let q ← parseNode (Json.obj inner)
            Except.ok (Q.qnot q)
          | _ => Except.error "NOT operation requires a dictionary condition"
        else if operation == "eq" then parseEq value
        else Except.error "Unsupported operation"
      | none => Except.error "No valid operation found in node"
    | _ => Except.error "Multiple operations in single node"
  | _ => Except.error "Filter node must be a dictionary"
termination_by sizeOf node
decreasing_by
  all_goals simp_wf
  all_goals (first
    | omega
    | (have h2 := sizeOf_lookupField h; simp at h2; omega))

/-- The recursion of `_parse_and`/`_parse_or` over their condition lists:
parse each child node in order, propagating the first error. -/
def parseNodeList (cs : List Json) : Except String (List Q) :=
  match cs with
  | [] => Except.ok []
  | c :: rest => do
    let q ← parseNode c
    let qs ← parseNodeList rest
    Except.ok (q :: qs)
termination_by sizeOf cs
decreasing_by
  all_goals simp_wf
  all_goals omega

end

/-- `DynamicFilter.parse` (filters.py lines 20-30).  `__init__` replaces a
falsy `filter_dict` by `{}` and `parse` returns `Q()` for a falsy dictionary,
which collapses to a single truthiness test. -/
def DynamicFilter.parse (filter_dict : Json) : Except String Q :=
  if !filter_dict.isTruthy then Except.ok Q.qempty
  else parseNode filter_dict

/-- One row of the `BlogView` dataset (models.py): a view event together with
the attributes of its related `Blog`, viewer `User` and `Country` rows that
the analytics code dereferences.  `viewer` and `country` are nullable foreign
keys, so the fields reached through them are `Option`s. -/
structure BlogViewRow where
  id : Nat
  blogId : Nat
  blogTitle : String
  blogAuthorUsername : String
  viewerUsername : Option String
  viewerCountryName : Option String
  countryName : Option String
  viewedAt : Nat
deriving DecidableEq, Repr, Inhabited

/-- A nullable text column as a JSON comparison value: `NULL` is `None`. -/
def optStrJson : Option String → Json
  | some s => Json.str s
  | none => Json.null

/-- Resolution of a Django lookup path against a `BlogView` row, for the
paths over the `models.py` schema that the analytics endpoints dereference.
Paths outside this set resolve to `none` (Django raises `FieldError`). -/
def resolveField (row : BlogViewRow) (field : String) : Option Json :=
  if field == "id" then some (Json.num (row.id : Int))
  else if field == "viewed_at" then some (Json.num (row.viewedAt : Int))
  else if field == "blog__id" then some (Json.num (row.blogId : Int))
  else if field == "blog__title" then some (Json.str row.blogTitle)
  else if field == "blog__author__username" then some (Json.str row.blogAuthorUsername)
  else if field == "viewer__username" then some (optStrJson row.viewerUsername)
  else if field == "viewer__country__name" then some (optStrJson row.viewerCountryName)
  else if field == "country__name" then some (optStrJson row.countryName)
  else none

/-- The lookup paths `resolveField` can resolve, used for the query adapter's
translation check. -/
def knownFields : List String :=
  ["id", "viewed_at", "blog__id", "blog__title", "blog__author__username",
   "viewer__username", "viewer__country__name", "country__name"]

/-- Evaluation of a `Q` object on one row.  `Q()` matches everything; a
keyword condition is Django's `exact` match of the resolved path against the
value; `&`, `|`, `~` are the boolean connectives. -/
def evalQ : Q → BlogViewRow → Bool
  | Q.qempty, _ => true
  | Q.cond field value, row =>
    match resolveField row field with
    | some jv => Json.beq jv value
    | none => false
  | Q.qand a b, row => evalQ a row && evalQ b row
  | Q.qor a b, row => evalQ a row || evalQ b row
  | Q.qnot a, row => !evalQ a row

/-- The lookup paths referenced by the leaves of a `Q` object. -/
def qFields : Q → List String
  | Q.qempty => []
  | Q.cond field _ => [field]
  | Q.qand a b => qFields a ++ qFields b
  | Q.qor a b => qFields a ++ qFields b
  | Q.qnot a => qFields a

/-- `queryset.filter(q_object)`: building the query fails with Django's
`FieldError` if some leaf references an unresolvable lookup path, and
otherwise keeps every row occurrence on which the predicate holds. -/
def querysetFilter (queryset : List BlogViewRow) (q : Q) : Except String (List BlogViewRow) :=
  match (qFields q).find? (fun f => !knownFields.contains f) with
  | some f => Except.error ("Cannot resolve keyword " ++ f ++ " into field")
  | none => Except.ok (queryset.filter (fun row => evalQ q row))

/-- `apply_filters` (filters.py lines 123-142): falsy filter dictionaries are
the identity; otherwise parse and filter, re-raising any exception as
`ValueError("Invalid filter: ...")`. -/
def apply_filters (queryset : List BlogViewRow) (filter_dict : Json) :
    Except String (List BlogViewRow) :=
  if !filter_dict.isTruthy then Except.ok queryset
  else
    match (DynamicFilter.parse filter_dict).bind (fun q => querysetFilter queryset q) with
    | Except.ok result => Except.ok result
    | Except.error e => Except.error ("Invalid filter: " ++ e)

/-- `validate_filters` (filters.py lines 145-163). -/
def validate_filters (filter_dict : Json) : Bool × String :=
  if !filter_dict.isTruthy then (true, "")
  else
    match DynamicFilter.parse filter_dict with
    | Except.ok _ => (true, "")
    | Except.error e => (false, e)

/-- Round-half-to-even of a rational to an integer, the rounding used by
IEEE-754 formatting of Python floats. -/
def roundHalfEven (x : ℚ) : ℤ :=
  let f := ⌊x⌋
  if x - f < 1 / 2 then f
  else if 1 / 2 < x - f then f + 1
  else if f % 2 = 0 then f else f + 1

/-- Python `f"{x:.1f}"` on the exact rational value: round to one decimal
digit (half to even) and render with the sign of the value, so that a tiny
negative value renders as `-0.0` just as Python does. -/
def formatFixed1 (x : ℚ) : String :=
  let n := roundHalfEven (10 * x)
  let sign := if x < 0 then "-" else ""
  sign ++ toString (n.natAbs / 10) ++ "." ++ toString (n.natAbs % 10)

/-- `calculate_growth_percentage` (utils.py lines 63-86), with Python float
arithmetic modelled by exact rationals: zero previous value returns the
`"0.0%"` / `"+100.0%"` sentinels, otherwise `((current - previous) /
previous) * 100` rendered to one decimal with a `+` prefix when
non-negative. -/
def calculate_growth_percentage (current previous : ℚ) : String :=
  if previous = 0 then
    if current = 0 then "0.0%" else "+100.0%"
  else
    let percentage := ((current - previous) / previous) * 100
    if 0 ≤ percentage then "+" ++ formatFixed1 percentage ++ "%"
    else formatFixed1 percentage ++ "%"

/-- Output row of `BlogViewsAPIView`: grouping key (a nullable text column
value as it came out of `values()`), distinct-blog count, view-event count. -/
structure XYZRow where
  x : Option String
  y : Nat
  z : Nat
deriving DecidableEq, Repr, Inhabited

/-- The `order_by("-total_views")` relation on grouped rows: non-increasing
view-event count.  The SQL sort is modelled by a stable sort under this
relation; the tie order is the model's deterministic choice, as the spec
leaves it to the implementer. -/
def zDesc (a b : XYZRow) : Prop := b.z ≤ a.z

instance : DecidableRel zDesc := fun a b => Nat.decLe b.z a.z

instance : IsTotal XYZRow zDesc := ⟨fun a b => Nat.le_total b.z a.z⟩

instance : IsTrans XYZRow zDesc := ⟨fun _ _ _ hab hbc => Nat.le_trans hbc hab⟩

/-- The country branch of `BlogViewsAPIView.get` (views.py lines 119-130):
`values("country__name")` grouping with `Count("blog", distinct=True)` and
`Count("id")`, then `filter(country__name__isnull=False)` and
`order_by("-total_views")`. -/
def BlogViewsAPIView.countryRows (queryset : List BlogViewRow) : List XYZRow :=
  let results := ((queryset.map (fun r => r.countryName)).dedup).map (fun k =>
    let grp := queryset.filter (fun r => r.countryName == k)
    { x := k, y := ((grp.map (fun r => r.blogId)).dedup).length, z := grp.length : XYZRow })
  let results := results.filter (fun row => row.x.isSome)
  List.insertionSort zDesc results

/-- The user branch of `BlogViewsAPIView.get` (views.py lines 132-143):
the same grouping keyed by `viewer__username`. -/
def BlogViewsAPIView.userRows (queryset : List BlogViewRow) : List XYZRow :=
  let results := ((queryset.map (fun r => r.viewerUsername)).dedup).map (fun k =>
    let grp := queryset.filter (fun r => r.viewerUsername == k)
    { x := k, y := ((grp.map (fun r => r.blogId)).dedup).length, z := grp.length : XYZRow })
  let results := results.filter (fun row => row.x.isSome)
  List.insertionSort zDesc results

/-- The grouping core of `BlogViewsAPIView.get` (views.py lines 119-143),
taking the already-filtered queryset: dispatch on `object_type`, whose two
values after `validate_object_type` are `"country"` and `"user"` (the code's
`else` branch is the user branch). -/
def BlogViewsAPIView.get (object_type : String) (queryset : List BlogViewRow) : List XYZRow :=
  if object_type == "country" then BlogViewsAPIView.countryRows queryset
  else BlogViewsAPIView.userRows queryset

/-- Output row of `TopAPIView`: primary identifier, secondary field (a name
or a count depending on the branch, hence a JSON value), view-event count. -/
structure TopRow where
  x : Option String
  y : Json
  z : Nat
deriving Repr

/-- `order_by("-total_views")` on `TopAPIView` rows. -/
def zDescTop (a b : TopRow) : Prop := b.z ≤ a.z

instance : DecidableRel zDescTop := fun a b => Nat.decLe b.z a.z

instance : IsTotal TopRow zDescTop := ⟨fun a b => Nat.le_total b.z a.z⟩

instance : IsTrans TopRow zDescTop := ⟨fun _ _ _ hab hbc => Nat.le_trans hbc hab⟩

/-- Python `r["viewer__country__name"] or "Unknown"`: a null or empty country
name falls back to `"Unknown"`. -/
def orUnknown : Option String → String
  | some s => if s.isEmpty then "Unknown" else s
  | none => "Unknown"

/-- The user branch of `TopAPIView.get` (views.py lines 198-214): group by
`(viewer__username, viewer__country__name)`, count view events, drop null
usernames, order by descending count, keep 10, project to `{x, y, z}`. -/
def TopAPIView.userRows (queryset : List BlogViewRow) : List TopRow :=
  let results := ((queryset.map (fun r => (r.viewerUsername, r.viewerCountryName))).dedup).map
    (fun k =>
      let grp := queryset.filter (fun r => (r.viewerUsername, r.viewerCountryName) == k)
      { x := k.1, y := Json.str (orUnknown k.2), z := grp.length : TopRow })
  let results := results.filter (fun row => row.x.isSome)
  (List.insertionSort zDescTop results).take 10

/-- The country branch of `TopAPIView.get` (views.py lines 216-227): group by
`country__name` with distinct-blog and view counts, drop null names, order by
descending view count, keep 10. -/
def TopAPIView.countryRows (queryset : List BlogViewRow) : List TopRow :=
  let results := ((queryset.map (fun r => r.countryName)).dedup).map (fun k =>
    let grp := queryset.filter (fun r => r.countryName == k)
    { x := k, y := Json.num (((grp.map (fun r => r.blogId)).dedup).length : Int),
      z := grp.length : TopRow })
  let results := results.filter (fun row => row.x.isSome)
  (List.insertionSort zDescTop results).take 10

/-- The blog branch of `TopAPIView.get` (views.py lines 229-243): group by
`(blog__title, blog__author__username)` — both non-nullable columns — count
view events, order by descending count, keep 10. -/
def TopAPIView.blogRows (queryset : List BlogViewRow) : List TopRow :=
  let results := ((queryset.map (fun r => (r.blogTitle, r.blogAuthorUsername))).dedup).map
    (fun k =>
      let grp := queryset.filter (fun r => (r.blogTitle, r.blogAuthorUsername) == k)
      { x := some k.1, y := Json.str k.2, z := grp.length : TopRow })
  (List.insertionSort zDescTop results).take 10

/-- The grouping core of `TopAPIView.get` (views.py lines 198-243), taking the
already-filtered queryset: dispatch on `top_type`; the code's `else` branch is
the blog branch. -/
def TopAPIView.get (top_type : String) (queryset : List BlogViewRow) : List TopRow :=
  if top_type == "user" then TopAPIView.userRows queryset
  else if top_type == "country" then TopAPIView.countryRows queryset
  else TopAPIView.blogRows queryset

/-- Output row of `PerformanceAPIView`: period label, view count, growth
percentage string. -/
structure PerfRow where
  x : String
  y : Nat
  z : String
deriving DecidableEq, Repr, Inhabited

/-- Python `d.get(k, 0)` on a period-count dictionary (an association list
with unique keys, as produced by the grouped queries). -/
def lookupD (d : List (Nat × Nat)) (k : Nat) : Nat :=
  match d.find? (fun kv => kv.1 == k) with
  | some kv => kv.2
  | none => 0

/-- `all_periods = sorted(set(views_dict.keys()) | set(blogs_dict.keys()))`
(views.py line 320): the ascending-sorted union of the period keys of the two
dictionaries. -/
def PerformanceAPIView.allPeriods (views_dict blogs_dict : List (Nat × Nat)) : List Nat :=
  List.insertionSort (fun a b => a ≤ b)
    (((views_dict.map Prod.fst) ++ (blogs_dict.map Prod.fst)).dedup)

/-- The accumulation loop of `PerformanceAPIView.get` (views.py lines 322-333):
walk the period sequence carrying `previous_views` (initially 0), emitting for
each period its label, its view count and the growth percentage against the
carried previous count, then updating the carry to the current count. -/
def PerformanceAPIView.loop (views_dict blogs_dict : List (Nat × Nat))
    (lbl : Nat → Nat → String) : List Nat → Nat → List PerfRow
  | [], _ => []
  | period :: rest, previous_views =>
    let current := lookupD views_dict period
    let blogs := lookupD blogs_dict period
    { x := lbl period blogs, y := current,
      z := calculate_growth_percentage (current : ℚ) (previous_views : ℚ) }
      :: PerformanceAPIView.loop views_dict blogs_dict lbl rest current

/-- The merge-and-growth stage of `PerformanceAPIView.get` (views.py lines
317-333), taking the two period-keyed count dictionaries produced by the
grouped queries and the period-label formatter (`format_period_label` applied
to the chosen granularity). -/
def PerformanceAPIView.series (views_dict blogs_dict : List (Nat × Nat))
    (lbl : Nat → Nat → String) : List PerfRow :=
  PerformanceAPIView.loop views_dict blogs_dict lbl
    (PerformanceAPIView.allPeriods views_dict blogs_dict) 0

/-- Modelled from the spec (§3, §4.1), for refutation only: the spec's leaf
`Condition` operator set `{eq, in, contains, gt, gte, lt, lte}`.  The code
under `src/` has no such leaf operator set. -/
def specSupportedOperators : List String :=
  ["eq", "in", "contains", "gt", "gte", "lt", "lte"]

/-- Modelled from the spec (§3), for refutation only: "a `Condition` is
recognized by the presence of both a `field` and an `op` key". -/
def isSpecLeafNode (j : Json) : Bool :=
  match j with
  | Json.obj fields => (lookupField fields "field").isSome && (lookupField fields "op").isSome
  | _ => false

/-- A sample view-event row for concrete instances: the queryset
`[sampleRow, sampleRow]` is the filter result of a one-to-many traversal in
which the same underlying row was matched through two related objects. -/
def sampleRow : BlogViewRow :=
  { id := 1, blogId := 1, blogTitle := "t", blogAuthorUsername := "a",
    viewerUsername := some "alice", viewerCountryName := none,
    countryName := some "US", viewedAt := 0 }

/-- `Json.isObj` tests for a JSON object (a Python dictionary). -/
def Json.isObj : Json → Bool
  | .obj _ => true
  | _ => false

/-- `Json.isArr` tests for a JSON array (a Python list). -/
def Json.isArr : Json → Bool
  | .arr _ => true
  | _ => false

theorem querysetFilter_qempty (queryset : List BlogViewRow) :
    querysetFilter queryset Q.qempty = Except.ok queryset := by
  simp [querysetFilter, qFields, List.find?, evalQ, List.filter_true]

theorem apply_filters_not_truthy (queryset : List BlogViewRow) (filter_dict : Json)
    (h : filter_dict.isTruthy = false) :
    apply_filters queryset filter_dict = Except.ok queryset := by
  simp [apply_filters, h]

/-- Claim C10: an empty or absent filter dictionary (any falsy value) is the
identity at the public entry points: `apply_filters` returns the queryset
unchanged, `validate_filters` returns `(True, "")`, and `parse` returns the
empty `Q()`; none of them treats it as an error. -/
theorem C10_empty_filter_identity :
    ∀ (queryset : List BlogViewRow) (filter_dict : Json),
      filter_dict.isTruthy = false →
      apply_filters queryset filter_dict = Except.ok queryset ∧
      validate_filters filter_dict = (true, "") ∧
      DynamicFilter.parse filter_dict = Except.ok Q.qempty := by
  intro queryset filter_dict h
  refine ⟨apply_filters_not_truthy queryset filter_dict h, ?_, ?_⟩
  · simp [validate_filters, h]
  · simp [DynamicFilter.parse, h]

/-- Witness for C10 at the empty dictionary `{}` and at `None`. -/
theorem C10_empty_filter_identity_witness :
    (Json.obj []).isTruthy = false ∧
    apply_filters [] (Json.obj []) = Except.ok [] ∧
    validate_filters Json.null = (true, "") := by
  refine ⟨rfl, (C10_empty_filter_identity [] (Json.obj []) rfl).1,
    (C10_empty_filter_identity [] Json.null rfl).2.1⟩

/-- Claim C4: an `and` node and an `or` node with an empty operand list both
parse to the empty `Q()`, the always-true predicate: it matches every row, and
filtering any dataset through either filter returns the dataset unchanged. -/
theorem C4_empty_and_or_always_true :
    DynamicFilter.parse (Json.obj [("and", Json.arr [])]) = Except.ok Q.qempty ∧
    DynamicFilter.parse (Json.obj [("or", Json.arr [])]) = Except.ok Q.qempty ∧
    (∀ row : BlogViewRow, evalQ Q.qempty row = true) ∧
    (∀ queryset : List BlogViewRow,
      apply_filters queryset (Json.obj [("and", Json.arr [])]) = Except.ok queryset) ∧
    (∀ queryset : List BlogViewRow,
      apply_filters queryset (Json.obj [("or", Json.arr [])]) = Except.ok queryset) := by
  have hand : DynamicFilter.parse (Json.obj [("and", Json.arr [])]) = Except.ok Q.qempty := by
    simp [DynamicFilter.parse, Json.isTruthy, parseNode, operationsOf,
      SUPPORTED_OPERATIONS, lookupField]
  have hor : DynamicFilter.parse (Json.obj [("or", Json.arr [])]) = Except.ok Q.qempty := by
    simp [DynamicFilter.parse, Json.isTruthy, parseNode, operationsOf,
      SUPPORTED_OPERATIONS, lookupField]
  refine ⟨hand, hor, fun row => rfl, fun queryset => ?_, fun queryset => ?_⟩
  · simp [apply_filters, Json.isTruthy, hand, Except.bind, querysetFilter_qempty]
  · simp [apply_filters, Json.isTruthy, hor, Except.bind, querysetFilter_qempty]

/-- Claim C5, part of the proof: any error from parsing or query translation
surfaces as `Invalid filter: ...`, and every error `apply_filters` raises has
that shape, carrying the underlying cause message. -/
theorem C5_uniform_invalid_filter_error :
    ∀ (queryset : List BlogViewRow) (filter_dict : Json),
      (∀ e, (DynamicFilter.parse filter_dict).bind (fun q => querysetFilter queryset q)
          = Except.error e →
        apply_filters queryset filter_dict = Except.error ("Invalid filter: " ++ e)) ∧
      (∀ msg, apply_filters queryset filter_dict = Except.error msg →
        ∃ e, msg = "Invalid filter: " ++ e ∧
          (DynamicFilter.parse filter_dict).bind (fun q => querysetFilter queryset q)
            = Except.error e) := by
  intro queryset filter_dict
  by_cases htruthy : filter_dict.isTruthy = true
  · constructor
    · intro e he
      simp [apply_filters, htruthy, he]
    · intro msg hmsg
      simp only [apply_filters, htruthy, Bool.not_true, Bool.false_eq_true, if_false] at hmsg
      split at hmsg
      · exact absurd hmsg (by simp)
      · rename_i e he
        exact ⟨e, by injection hmsg with h2; exact h2.symm, he⟩
  · have hfalse : filter_dict.isTruthy = false := by
      revert htruthy; cases filter_dict.isTruthy <;> simp
    have hok : (DynamicFilter.parse filter_dict).bind (fun q => querysetFilter queryset q)
        = Except.ok queryset := by
      simp [DynamicFilter.parse, hfalse, Except.bind, querysetFilter_qempty]
    constructor
    · intro e he
      rw [hok] at he
      exact absurd he (by simp)
    · intro msg hmsg
      rw [apply_filters_not_truthy queryset filter_dict hfalse] at hmsg
      exact absurd hmsg (by simp)

/-- Witness for C5: a node with no recognized operation key makes the parser
raise, and `apply_filters` re-raises it under the uniform prefix. -/
theorem C5_uniform_invalid_filter_error_witness :
    apply_filters [] (Json.obj [("bogus", Json.null)])
      = Except.error "Invalid filter: No valid operation found in node" := by
  refine (C5_uniform_invalid_filter_error [] (Json.obj [("bogus", Json.null)])).1
    "No valid operation found in node" ?_
  simp [DynamicFilter.parse, Json.isTruthy, parseNode, operationsOf,
    SUPPORTED_OPERATIONS, lookupField, Except.bind]

/-- Claim C6: the growth formula.  The zero-previous branches return the
sentinels, the general branch renders `((c - p) / p) * 100` to one decimal
with a `+` prefix exactly when non-negative, and the four documented data
points hold. -/
theorem C6_growth_percentage :
    (∀ c p : ℚ,
      ((p = 0 ∧ c = 0) → calculate_growth_percentage c p = "0.0%") ∧
      ((p = 0 ∧ c ≠ 0) → calculate_growth_percentage c p = "+100.0%") ∧
      (p ≠ 0 → calculate_growth_percentage c p =
        (if 0 ≤ ((c - p) / p) * 100
         then "+" ++ formatFixed1 (((c - p) / p) * 100) ++ "%"
         else formatFixed1 (((c - p) / p) * 100) ++ "%"))) ∧
    calculate_growth_percentage 0 0 = "0.0%" ∧
    calculate_growth_percentage 5 0 = "+100.0%" ∧
    calculate_growth_percentage 150 100 = "+50.0%" ∧
    calculate_growth_percentage 50 100 = "-50.0%" := by
  constructor
  · intro c p
    refine ⟨fun h => ?_, fun h => ?_, fun h => ?_⟩
    · simp [calculate_growth_percentage, h.1, h.2]
    · simp [calculate_growth_percentage, h.1, h.2]
    · simp [calculate_growth_percentage, h]
  refine ⟨by norm_num [calculate_growth_percentage],
    by norm_num [calculate_growth_percentage], ?_, ?_⟩
  · norm_num [calculate_growth_percentage, formatFixed1, roundHalfEven]
    rfl
  · norm_num [calculate_growth_percentage, formatFixed1, roundHalfEven]
    rfl

/-- Witness for C6: the general branch applied at `(150, 100)`. -/
theorem C6_growth_percentage_witness :
    calculate_growth_percentage 150 100 =
      (if 0 ≤ (((150 : ℚ) - 100) / 100) * 100
       then "+" ++ formatFixed1 ((((150 : ℚ) - 100) / 100) * 100) ++ "%"
       else formatFixed1 ((((150 : ℚ) - 100) / 100) * 100) ++ "%") :=
  (C6_growth_percentage.1 150 100).2.2 (by norm_num)

theorem Json.beq_num_iff (n : Int) (v : Json) :
    Json.beq (Json.num n) v = true ↔ v = Json.num n := by
  cases v <;> simp [Json.beq] <;> exact eq_comm

theorem Json.beq_str_iff (s : String) (v : Json) :
    Json.beq (Json.str s) v = true ↔ v = Json.str s := by
  cases v <;> simp [Json.beq] <;> exact eq_comm

theorem Json.beq_null_iff (v : Json) :
    Json.beq Json.null v = true ↔ v = Json.null := by
  cases v <;> simp [Json.beq]

theorem beq_optStrJson_iff (o : Option String) (v : Json) :
    Json.beq (optStrJson o) v = true ↔ v = optStrJson o := by
  cases o with
  | none => exact Json.beq_null_iff v
  | some s => exact Json.beq_str_iff s v

/-- A keyword condition `Q(**{field: value})` holds on a row exactly when the
lookup path resolves on that row to exactly the given value. -/
theorem evalQ_cond_iff (field : String) (value : Json) (row : BlogViewRow) :
    evalQ (Q.cond field value) row = true ↔ resolveField row field = some value := by
  simp only [evalQ]
  unfold resolveField
  split_ifs <;>
    simp only [Option.some.injEq, Json.beq_num_iff, Json.beq_str_iff, beq_optStrJson_iff] <;>
    try exact eq_comm

/-- Claim C1, counterexample: the node `{"field": "title", "op": "eq",
"value": "x"}` is a leaf `Condition` in the spec's sense whose operator `eq`
the spec's table supports, yet `parse` rejects it: none of the keys `field`,
`op`, `value` is in `SUPPORTED_OPERATIONS`, so the parser reports that no
valid operation was found instead of building a comparison. -/
theorem C1_counterexample :
    isSpecLeafNode (Json.obj [("field", Json.str "title"), ("op", Json.str "eq"),
      ("value", Json.str "x")]) = true ∧
    specSupportedOperators.contains "eq" = true ∧
    DynamicFilter.parse (Json.obj [("field", Json.str "title"), ("op", Json.str "eq"),
      ("value", Json.str "x")]) = Except.error "No valid operation found in node" := by
  refine ⟨by decide, by decide, ?_⟩
  simp [DynamicFilter.parse, Json.isTruthy, parseNode, operationsOf,
    SUPPORTED_OPERATIONS, lookupField]

/-- Claim C1, as amended: the operation keys `parse` recognizes are exactly
`and`, `or`, `not`, `eq`; a node carrying `field` and `op` keys is not a leaf
form but a structural error, whatever the values; a leaf comparison is instead
written `{"eq": {lookup-path: value}}`, which parses to a keyword condition
evaluated as an exact match of the resolved path against the value. -/
theorem C1_amended_leaf_form :
    SUPPORTED_OPERATIONS = ["and", "or", "not", "eq"] ∧
    (∀ f o v : Json,
      parseNode (Json.obj [("field", f), ("op", o), ("value", v)])
        = Except.error "No valid operation found in node") ∧
    (∀ (field : String) (value : Json),
      DynamicFilter.parse (Json.obj [("eq", Json.obj [(field, value)])])
        = Except.ok (Q.cond field value)) ∧
    (∀ (field : String) (value : Json) (row : BlogViewRow),
      evalQ (Q.cond field value) row = true ↔ resolveField row field = some value) := by
  refine ⟨rfl, fun f o v => ?_, fun field value => ?_, evalQ_cond_iff⟩
  · simp [parseNode, operationsOf, SUPPORTED_OPERATIONS]
  · simp [DynamicFilter.parse, Json.isTruthy, parseNode, operationsOf,
      SUPPORTED_OPERATIONS, lookupField, parseEq, qAnd]

theorem count_filter_or_zero (l : List BlogViewRow) (p : BlogViewRow → Bool) (r : BlogViewRow) :
    (l.filter p).count r = l.count r ∨ (l.filter p).count r = 0 := by
  by_cases hp : p r = true
  · exact Or.inl (List.count_filter hp)
  · refine Or.inr (List.count_eq_zero.mpr (fun hmem => ?_))
    exact hp (List.mem_filter.mp hmem).2

/-- Claim C2, as amended: `apply_filters` performs no deduplication pass.  On
success it returns either the queryset unchanged (falsy filter) or exactly the
row-wise filtering of the queryset by the parsed predicate, so every row
occurrence that satisfies the predicate is kept with its multiplicity: the
count of any row in the output equals its count in the input or zero, never a
deduplicated intermediate value. -/
theorem C2_amended_no_dedup :
    ∀ (queryset : List BlogViewRow) (filter_dict : Json) (out : List BlogViewRow),
      apply_filters queryset filter_dict = Except.ok out →
      (out = queryset ∨ ∃ q, DynamicFilter.parse filter_dict = Except.ok q ∧
        out = queryset.filter (fun row => evalQ q row)) ∧
      (∀ row : BlogViewRow, out.count row = queryset.count row ∨ out.count row = 0) := by
  intro queryset filter_dict out hok
  have hmain : out = queryset ∨ ∃ q, DynamicFilter.parse filter_dict = Except.ok q ∧
      out = queryset.filter (fun row => evalQ q row) := by
    by_cases htruthy : filter_dict.isTruthy = true
    · simp only [apply_filters, htruthy, Bool.not_true, Bool.false_eq_true, if_false] at hok
      cases hparse : DynamicFilter.parse filter_dict with
      | error e => rw [hparse] at hok; exact absurd hok (by simp [Except.bind])
      | ok q =>
        rw [hparse] at hok
        simp only [Except.bind] at hok
        cases hqf : querysetFilter queryset q with
        | error e => rw [hqf] at hok; exact absurd hok (by simp)
        | ok result =>
          rw [hqf] at hok
          refine Or.inr ⟨q, rfl, ?_⟩
          have h2 : result = out := by simpa using hok
          rw [← h2]
          have h3 := hqf
          unfold querysetFilter at h3
          split at h3
          · exact absurd h3 (by simp)
          · injection h3 with h4; exact h4.symm
    · have hfalse : filter_dict.isTruthy = false := by
        revert htruthy; cases filter_dict.isTruthy <;> simp
      rw [apply_filters_not_truthy queryset filter_dict hfalse] at hok
      injection hok with h2
      exact Or.inl h2.symm
  refine ⟨hmain, fun row => ?_⟩
  rcases hmain with h | ⟨q, _, h⟩
  · rw [h]; exact Or.inl rfl
  · rw [h]; exact count_filter_or_zero queryset (fun r => evalQ q r) row

/-- Claim C2, counterexample: on the queryset `[sampleRow, sampleRow]` — the
shape a one-to-many join traversal leaves behind — the well-formed filter
`{"eq": {"id": 1}}` matches the row, and `apply_filters` returns it twice:
the result does not contain each underlying row at most once, and no
deduplication pass runs after filtering. -/
theorem C2_counterexample :
    apply_filters [sampleRow, sampleRow] (Json.obj [("eq", Json.obj [("id", Json.num 1)])])
      = Except.ok [sampleRow, sampleRow] ∧
    List.count sampleRow [sampleRow, sampleRow] = 2 := by
  constructor
  · simp [apply_filters, Json.isTruthy, DynamicFilter.parse, parseNode, operationsOf,
      SUPPORTED_OPERATIONS, lookupField, parseEq, qAnd, Except.bind, querysetFilter,
      qFields, knownFields, evalQ, resolveField, sampleRow, Json.beq, List.filter]
  · decide

theorem take_sorted_top (l : List TopRow) :
    ((List.insertionSort zDescTop l).take 10).length ≤ 10 ∧
    List.Sorted zDescTop ((List.insertionSort zDescTop l).take 10) := by
  constructor
  · rw [List.length_take]; exact min_le_left _ _
  · exact List.Pairwise.sublist (List.take_sublist 10 _)
      (List.sorted_insertionSort zDescTop l)

/-- Claim C8: for every dimension value and every filtered dataset, the top-N
ranking returns at most 10 rows, and they are ordered non-increasing by
view-event count. -/
theorem C8_top10_sorted :
    ∀ (top_type : String) (queryset : List BlogViewRow),
      (TopAPIView.get top_type queryset).length ≤ 10 ∧
      List.Sorted zDescTop (TopAPIView.get top_type queryset) := by
  intro top_type queryset
  unfold TopAPIView.get TopAPIView.userRows TopAPIView.countryRows TopAPIView.blogRows
  split_ifs <;> exact take_sorted_top _

theorem filter_sorted_xyz (l : List XYZRow) :
    ((List.insertionSort zDesc (l.filter (fun r => r.x.isSome))).all
      (fun r => r.x.isSome)) = true ∧
    List.Sorted zDesc (List.insertionSort zDesc (l.filter (fun r => r.x.isSome))) := by
  constructor
  · rw [List.all_eq_true]
    intro x hx
    have hmem := (List.perm_insertionSort zDesc
      (l.filter (fun r => r.x.isSome))).mem_iff.mp hx
    exact (List.mem_filter.mp hmem).2
  · exact List.sorted_insertionSort zDesc _

/-- Claim C9: in the grouped-counts aggregation, for either grouping
dimension, every output row has a non-null grouping key (rows grouped under a
null key are dropped by the `isnull=False` filter) and the output is ordered
non-increasing by view-event count. -/
theorem C9_null_keys_dropped_sorted :
    ∀ (object_type : String) (queryset : List BlogViewRow),
      ((BlogViewsAPIView.get object_type queryset).all (fun r => r.x.isSome)) = true ∧
      List.Sorted zDesc (BlogViewsAPIView.get object_type queryset) := by
  intro object_type queryset
  unfold BlogViewsAPIView.get BlogViewsAPIView.countryRows BlogViewsAPIView.userRows
  split_ifs <;> exact filter_sorted_xyz _

theorem PerformanceAPIView.loop_spec (views_dict blogs_dict : List (Nat × Nat))
    (lbl : Nat → Nat → String) :
    ∀ (ps : List Nat) (prev : Nat),
      (PerformanceAPIView.loop views_dict blogs_dict lbl ps prev).length = ps.length ∧
      (∀ i, i < ps.length →
        (PerformanceAPIView.loop views_dict blogs_dict lbl ps prev).getD i default
          = { x := lbl (ps.getD i 0) (lookupD blogs_dict (ps.getD i 0)),
              y := lookupD views_dict (ps.getD i 0),
              z := calculate_growth_percentage
                    ((lookupD views_dict (ps.getD i 0)) : ℚ)
                    ((if i = 0 then prev
                      else lookupD views_dict (ps.getD (i - 1) 0)) : ℚ) }) := by
  intro ps
  induction ps with
  | nil => intro prev; exact ⟨rfl, fun i hi => absurd hi (by simp)⟩
  | cons period rest ih =>
    intro prev
    constructor
    · simp [PerformanceAPIView.loop, (ih (lookupD views_dict period)).1]
    · intro i hi
      match i with
      | 0 => simp [PerformanceAPIView.loop]
      | j + 1 =>
        have hj : j < rest.length := by simpa using hi
        have hrec := (ih (lookupD views_dict period)).2 j hj
        simp only [PerformanceAPIView.loop, List.getD_cons_succ]
        rw [hrec]
        match j with
        | 0 => simp
        | k + 1 => simp

/-- Claim C7: the performance series is computed over the ascending-sorted
union of the view-period keys and the blog-creation-period keys, and each
row's growth percentage compares that row's view count with the view count at
the immediately preceding period of this sorted sequence (0 before the first
row), not with any calendar-shifted window. -/
theorem C7_series_sorted_union_sequential_growth :
    ∀ (views_dict blogs_dict : List (Nat × Nat)) (lbl : Nat → Nat → String),
      List.Sorted (fun a b => a ≤ b) (PerformanceAPIView.allPeriods views_dict blogs_dict) ∧
      (∀ p : Nat, p ∈ PerformanceAPIView.allPeriods views_dict blogs_dict ↔
        (p ∈ views_dict.map Prod.fst ∨ p ∈ blogs_dict.map Prod.fst)) ∧
      (PerformanceAPIView.series views_dict blogs_dict lbl).length
        = (PerformanceAPIView.allPeriods views_dict blogs_dict).length ∧
      (∀ i, i < (PerformanceAPIView.allPeriods views_dict blogs_dict).length →
        ((PerformanceAPIView.series views_dict blogs_dict lbl).getD i default).z
          = calculate_growth_percentage
              ((lookupD views_dict
                ((PerformanceAPIView.allPeriods views_dict blogs_dict).getD i 0)) : ℚ)
              ((if i = 0 then 0
                else lookupD views_dict
                  ((PerformanceAPIView.allPeriods views_dict blogs_dict).getD (i - 1) 0)) : ℚ)) := by
  intro views_dict blogs_dict lbl
  refine ⟨List.sorted_insertionSort _ _, fun p => ?_, ?_, fun i hi => ?_⟩
  · unfold PerformanceAPIView.allPeriods
    rw [(List.perm_insertionSort _ _).mem_iff]
    simp [List.mem_dedup, List.mem_append]
  · exact (PerformanceAPIView.loop_spec views_dict blogs_dict lbl
      (PerformanceAPIView.allPeriods views_dict blogs_dict) 0).1
  · unfold PerformanceAPIView.series
    rw [(PerformanceAPIView.loop_spec views_dict blogs_dict lbl
      (PerformanceAPIView.allPeriods views_dict blogs_dict) 0).2 i hi]
    by_cases h0 : i = 0 <;> simp [h0]

/-- Witness for C7 at `views_dict = [(1, 5)]`, `blogs_dict = []`, `i = 0`:
the first row's growth compares the period's 5 views against 0. -/
theorem C7_series_sorted_union_sequential_growth_witness :
    ((PerformanceAPIView.series [(1, 5)] [] (fun _ _ => "p")).getD 0 default).z
      = calculate_growth_percentage
          ((lookupD [(1, 5)] ((PerformanceAPIView.allPeriods [(1, 5)] []).getD 0 0)) : ℚ)
          ((if (0 : Nat) = 0 then 0
            else lookupD [(1, 5)] ((PerformanceAPIView.allPeriods [(1, 5)] []).getD (0 - 1) 0)) : ℚ) :=
  (C7_series_sorted_union_sequential_growth [(1, 5)] [] (fun _ _ => "p")).2.2.2 0 (by decide)

theorem parseNode_obj_and (fields : List (String × Json)) (v : Json)
    (hops : operationsOf fields = ["and"])
    (hlook : lookupField fields "and" = some v) :
    parseNode (Json.obj fields) =
      (match v with
       | Json.arr cs =>
         if cs.isEmpty then Except.ok Q.qempty
         else (parseNodeList cs).bind (fun qs => Except.ok (qs.foldl qAnd Q.qempty))
       | _ => Except.error "AND operation requires a list of conditions") := by
  rw [parseNode.eq_def]
  simp only [hops]
  split
  · rename_i value heq
    rw [hlook] at heq
    injection heq with heq2
    subst heq2
    rw [if_pos (by rfl)]
    cases v <;> rfl
  · rename_i heq
    rw [hlook] at heq
    exact absurd heq (by simp)

theorem parseNode_obj_or (fields : List (String × Json)) (v : Json)
    (hops : operationsOf fields = ["or"])
    (hlook : lookupField fields "or" = some v) :
    parseNode (Json.obj fields) =
      (match v with
       | Json.arr cs =>
         if cs.isEmpty then Except.ok Q.qempty
         else (parseNodeList cs).bind (fun qs => Except.ok (qs.foldl qOr Q.qempty))
       | _ => Except.error "OR operation requires a list of conditions") := by
  rw [parseNode.eq_def]
  simp only [hops]
  split
  · rename_i value heq
    rw [hlook] at heq
    injection heq with heq2
    subst heq2
    rw [if_neg (by decide), if_pos (by rfl)]
    cases v <;> rfl
  · rename_i heq
    rw [hlook] at heq
    exact absurd heq (by simp)

theorem parseNode_obj_not (fields : List (String × Json)) (v : Json)
    (hops : operationsOf fields = ["not"])
    (hlook : lookupField fields "not" = some v) :
    parseNode (Json.obj fields) =
      (match v with
       | Json.obj inner =>
         (parseNode (Json.obj inner)).bind (fun q => Except.ok (Q.qnot q))
       | _ => Except.error "NOT operation requires a dictionary condition") := by
  rw [parseNode.eq_def]
  simp only [hops]
  split
  · rename_i value heq
    rw [hlook] at heq
    injection heq with heq2
    subst heq2
    rw [if_neg (by decide), if_neg (by decide), if_pos (by rfl)]
    cases v <;> rfl
  · rename_i heq
    rw [hlook] at heq
    exact absurd heq (by simp)

theorem parseNode_obj_eq (fields : List (String × Json)) (v : Json)
    (hops : operationsOf fields = ["eq"])
    (hlook : lookupField fields "eq" = some v) :
    parseNode (Json.obj fields) = parseEq v := by
  rw [parseNode.eq_def]
  simp only [hops]
  split
  · rename_i value heq
    rw [hlook] at heq
    injection heq with heq2
    subst heq2
    rw [if_neg (by decide), if_neg (by decide), if_neg (by decide), if_pos (by rfl)]
  · rename_i heq
    rw [hlook] at heq
    exact absurd heq (by simp)

theorem parseNodeList_ok (cs : List Json)
    (h : ∀ c ∈ cs, ∃ q, parseNode c = Except.ok q) :
    ∃ qs, parseNodeList cs = Except.ok qs := by
  induction cs with
  | nil => exact ⟨[], by rw [parseNodeList.eq_def]⟩
  | cons c rest ih =>
    obtain ⟨q, hq⟩ := h c (by simp)
    obtain ⟨qs, hqs⟩ := ih (fun x hx => h x (by simp [hx]))
    refine ⟨q :: qs, ?_⟩
    rw [parseNodeList.eq_def]
    simp only [hq, hqs]
    rfl

theorem parseNodeList_error (cs : List Json) (c : Json) (e : String) (hc : c ∈ cs)
    (he : parseNode c = Except.error e) :
    ∃ e2, parseNodeList cs = Except.error e2 := by
  induction cs with
  | nil => simp at hc
  | cons d rest ih =>
    cases hd : parseNode d with
    | error e0 =>
      refine ⟨e0, ?_⟩
      rw [parseNodeList.eq_def]
      simp only [hd]
      rfl
    | ok q =>
      rcases List.mem_cons.mp hc with h | h
      · subst h; rw [hd] at he; exact absurd he (by simp)
      · obtain ⟨e2, he2⟩ := ih h
        refine ⟨e2, ?_⟩
        rw [parseNodeList.eq_def]
        simp only [hd, he2]
        rfl

theorem lookup_op_exists (fields : List (String × Json)) (op : String)
    (h : op ∈ fields.map Prod.fst) : ∃ v, lookupField fields op = some v := by
  induction fields with
  | nil => simp at h
  | cons kv rest ih =>
    obtain ⟨k, w⟩ := kv
    by_cases heq : k == op
    · exact ⟨w, by simp [lookupField, heq]⟩
    · simp only [List.map_cons, List.mem_cons] at h
      have hmem : op ∈ rest.map Prod.fst := by
        rcases h with h | h
        · exact absurd (by simp [h]) heq
        · exact h
      obtain ⟨v, hv⟩ := ih hmem
      exact ⟨v, by simp [lookupField, heq, hv]⟩

/-- Claim C3, as amended: `_parse_node` raises a structural error exactly
when: a node at any recursion level is not a JSON object; the number of keys
from `SUPPORTED_OPERATIONS` (`and`, `or`, `not`, `eq`) in a node is not
exactly one; an `and`/`or` operand is not an array; a `not` operand is not an
object; an `eq` operand is not an object; or a child node's parse fails —
and succeeds in every other case.  There is no leaf `{field, op, value}`
form, no separate leaf operator set, and the rules below pin the behavior on
both the error and the success side (the lookup of the single operation key
never fails, so together they cover every input). -/
theorem C3_amended_error_conditions :
    (∀ j : Json, j.isObj = false →
      parseNode j = Except.error "Filter node must be a dictionary") ∧
    (∀ fields, operationsOf fields = [] →
      parseNode (Json.obj fields) = Except.error "No valid operation found in node") ∧
    (∀ fields, 2 ≤ (operationsOf fields).length →
      parseNode (Json.obj fields) = Except.error "Multiple operations in single node") ∧
    (∀ fields op, op ∈ operationsOf fields → ∃ v, lookupField fields op = some v) ∧
    (∀ fields v, operationsOf fields = ["and"] → lookupField fields "and" = some v →
      v.isArr = false →
      parseNode (Json.obj fields) = Except.error "AND operation requires a list of conditions") ∧
    (∀ fields v, operationsOf fields = ["or"] → lookupField fields "or" = some v →
      v.isArr = false →
      parseNode (Json.obj fields) = Except.error "OR operation requires a list of conditions") ∧
    (∀ fields v, operationsOf fields = ["not"] → lookupField fields "not" = some v →
      v.isObj = false →
      parseNode (Json.obj fields) = Except.error "NOT operation requires a dictionary condition") ∧
    (∀ fields v, operationsOf fields = ["eq"] → lookupField fields "eq" = some v →
      v.isObj = false →
      parseNode (Json.obj fields)
        = Except.error "EQ operation requires a dictionary of field-value pairs") ∧
    (∀ fields cs c e, operationsOf fields = ["and"] →
      lookupField fields "and" = some (Json.arr cs) → c ∈ cs →
      parseNode c = Except.error e → ∃ e2, parseNode (Json.obj fields) = Except.error e2) ∧
    (∀ fields cs c e, operationsOf fields = ["or"] →
      lookupField fields "or" = some (Json.arr cs) → c ∈ cs →
      parseNode c = Except.error e → ∃ e2, parseNode (Json.obj fields) = Except.error e2) ∧
    (∀ fields inner e, operationsOf fields = ["not"] →
      lookupField fields "not" = some (Json.obj inner) →
      parseNode (Json.obj inner) = Except.error e →
      parseNode (Json.obj fields) = Except.error e) ∧
    (∀ fields cs, operationsOf fields = ["and"] →
      lookupField fields "and" = some (Json.arr cs) →
      (∀ c ∈ cs, ∃ q, parseNode c = Except.ok q) →
      ∃ q, parseNode (Json.obj fields) = Except.ok q) ∧
    (∀ fields cs, operationsOf fields = ["or"] →
      lookupField fields "or" = some (Json.arr cs) →
      (∀ c ∈ cs, ∃ q, parseNode c = Except.ok q) →
      ∃ q, parseNode (Json.obj fields) = Except.ok q) ∧
    (∀ fields inner q, operationsOf fields = ["not"] →
      lookupField fields "not" = some (Json.obj inner) →
      parseNode (Json.obj inner) = Except.ok q →
      parseNode (Json.obj fields) = Except.ok (Q.qnot q)) ∧
    (∀ fields fvs, operationsOf fields = ["eq"] →
      lookupField fields "eq" = some (Json.obj fvs) →
      ∃ q, parseNode (Json.obj fields) = Except.ok q) := by
  refine ⟨?_, ?_, ?_, ?_, ?_, ?_, ?_, ?_, ?_, ?_, ?_, ?_, ?_, ?_, ?_⟩
  · intro j hj
    cases j with
    | obj fields => simp [Json.isObj] at hj
    | null => rw [parseNode.eq_def]
    | bool b => rw [parseNode.eq_def]
    | num n => rw [parseNode.eq_def]
    | str s => rw [parseNode.eq_def]
    | arr xs => rw [parseNode.eq_def]
  · intro fields h
    rw [parseNode.eq_def]
    simp only [h]
  · intro fields h
    rcases hl : operationsOf fields with _ | ⟨a, _ | ⟨b, rest⟩⟩
    · rw [hl] at h; simp at h
    · rw [hl] at h; simp at h
    · rw [parseNode.eq_def]; simp only [hl]
  · intro fields op h
    simp only [operationsOf] at h
    exact lookup_op_exists fields op (List.mem_filter.mp h).1
  · intro fields v hops hlook hv
    rw [parseNode_obj_and fields v hops hlook]
    cases v <;> simp_all [Json.isArr]
  · intro fields v hops hlook hv
    rw [parseNode_obj_or fields v hops hlook]
    cases v <;> simp_all [Json.isArr]
  · intro fields v hops hlook hv
    rw [parseNode_obj_not fields v hops hlook]
    cases v <;> simp_all [Json.isObj]
  · intro fields v hops hlook hv
    rw [parseNode_obj_eq fields v hops hlook]
    cases v <;> simp_all [Json.isObj, parseEq]
  · intro fields cs c e hops hlook hc he
    have hemp : cs.isEmpty = false := by
      cases cs with
      | nil => simp at hc
      | cons d rest => rfl
    obtain ⟨e2, he2⟩ := parseNodeList_error cs c e hc he
    refine ⟨e2, ?_⟩
    rw [parseNode_obj_and fields (Json.arr cs) hops hlook]
    simp [hemp, he2, Except.bind]
  · intro fields cs c e hops hlook hc he
    have hemp : cs.isEmpty = false := by
      cases cs with
      | nil => simp at hc
      | cons d rest => rfl
    obtain ⟨e2, he2⟩ := parseNodeList_error cs c e hc he
    refine ⟨e2, ?_⟩
    rw [parseNode_obj_or fields (Json.arr cs) hops hlook]
    simp [hemp, he2, Except.bind]
  · intro fields inner e hops hlook he
    rw [parseNode_obj_not fields (Json.obj inner) hops hlook]
    simp [he, Except.bind]
  · intro fields cs hops hlook h
    rw [parseNode_obj_and fields (Json.arr cs) hops hlook]
    by_cases hemp : cs.isEmpty
    · exact ⟨Q.qempty, by simp [hemp]⟩
    · obtain ⟨qs, hqs⟩ := parseNodeList_ok cs h
      exact ⟨qs.foldl qAnd Q.qempty, by simp [hemp, hqs, Except.bind]⟩
  · intro fields cs hops hlook h
    rw [parseNode_obj_or fields (Json.arr cs) hops hlook]
    by_cases hemp : cs.isEmpty
    · exact ⟨Q.qempty, by simp [hemp]⟩
    · obtain ⟨qs, hqs⟩ := parseNodeList_ok cs h
      exact ⟨qs.foldl qOr Q.qempty, by simp [hemp, hqs, Except.bind]⟩
  · intro fields inner q hops hlook hq
    rw [parseNode_obj_not fields (Json.obj inner) hops hlook]
    simp [hq, Except.bind]
  · intro fields fvs hops hlook
    rw [parseNode_obj_eq fields (Json.obj fvs) hops hlook]
    exact ⟨fvs.foldl (fun q fv => qAnd q (Q.cond fv.1 fv.2)) Q.qempty, by simp [parseEq]⟩

/-- Witness for C3: a node carrying both `and` and `or` keys has two
recognized operation keys and raises the multiple-operations error. -/
theorem C3_amended_error_conditions_witness :
    parseNode (Json.obj [("and", Json.arr []), ("or", Json.arr [])])
      = Except.error "Multiple operations in single node" :=
  C3_amended_error_conditions.2.2.1 [("and", Json.arr []), ("or", Json.arr [])] (by decide)

/-- Claim C3, counterexample: the claim's condition list treats a node with
`field` and `op` keys as a leaf whose supported operator must be accepted;
the node `{"field": "country__name", "op": "in", "value": [...]}` is such a
leaf (its operator `in` is in the spec's supported set, it is a JSON object,
and no operand-shape clause applies), so by the claim `parse` must not raise
— but the code raises the no-valid-operation structural error. -/
theorem C3_counterexample :
    isSpecLeafNode (Json.obj [("field", Json.str "country__name"), ("op", Json.str "in"),
      ("value", Json.arr [Json.str "US"])]) = true ∧
    specSupportedOperators.contains "in" = true ∧
    DynamicFilter.parse (Json.obj [("field", Json.str "country__name"), ("op", Json.str "in"),
      ("value", Json.arr [Json.str "US"])])
      = Except.error "No valid operation found in node" := by
  refine ⟨by decide, by decide, ?_⟩
  simp [DynamicFilter.parse, Json.isTruthy, parseNode, operationsOf,
    SUPPORTED_OPERATIONS, lookupField]

/-- Witness for C2's amended claim at a falsy filter on the empty queryset. -/
theorem C2_amended_no_dedup_witness :
    (([] : List BlogViewRow) = [] ∨ ∃ q, DynamicFilter.parse Json.null = Except.ok q ∧
      ([] : List BlogViewRow) = List.filter (fun row => evalQ q row) []) :=
  (C2_amended_no_dedup [] Json.null [] (by simp [apply_filters, Json.isTruthy])).1
